import Mathlib

/-!
Verification of the mixed-content resolution layer of a Japanese statute XML
binder (`ja_law_parser`).  The source (`model.py`) maps lxml elements to typed
nodes; the core is the recursive mixed-content resolver that turns an
element's interleaved text/element children into an ordered list of typed
content items, and the `text` accessors that fold such a list into a flat
string.  This file shallowly embeds the element trees, the four resolver
contexts (`Sentence.contents`, `QuoteStruct.contents`, `Line.contents`,
`TaggedText.tagged_text`), the attribute accessors, and the `texts()`
traversals, and proves the ordering, text and error-handling properties.
-/

namespace JaLaw

/--
An lxml element as the resolver observes it: tag name, attribute map
(`element.attrib`, modelled as an association list with unique keys looked up
front-to-back), head text (`element.text`, `none` when absent), ordered child
elements (`element.iterchildren()`), and trailing text (`element.tail`).
lxml represents missing head/tail text as `None`, never as the empty string.
-/
inductive XmlElem : Type where
  | mk (tag : String) (attrs : List (String × String)) (text : Option String)
       (children : List XmlElem) (tail : Option String)

/-- Source: `element.tag` -/
def XmlElem.tag : XmlElem → String
  | .mk t _ _ _ _ => t

/-- Source: `element.attrib` -/
def XmlElem.attrs : XmlElem → List (String × String)
  | .mk _ a _ _ _ => a

/-- Source: `element.text` (head text) -/
def XmlElem.text : XmlElem → Option String
  | .mk _ _ txt _ _ => txt

/-- Source: `element.iterchildren()` -/
def XmlElem.children : XmlElem → List XmlElem
  | .mk _ _ _ ch _ => ch

/-- Source: `element.tail` (trailing text) -/
def XmlElem.tail : XmlElem → Option String
  | .mk _ _ _ _ tl => tl

/--
`get_attr(element, tag)` (model.py:3518): the attribute's raw string value
when present, `none` when absent.  The source's bytes-to-str decoding branch
has no counterpart here because attribute values are already text in this
embedding.
-/
def get_attr (e : XmlElem) (tag : String) : Option String :=
  e.attrs.lookup tag

/--
A resolved content item: one constructor per content class that the
resolvers can emit (`Text`, `Ruby`, `Sup`, `Sub`, `Fig`, `ArithFormula`,
`Line`, `QuoteStruct`, `Sentence`, `List`, `FigStruct`, `Table`,
`TableStruct`).  `Ruby` carries the `Rt` readings and its text; `Fig` its
`src` attribute; `ArithFormula` its `Num` attribute and the `src` values of
its `Fig` children.  The four structural classes (`List`, `FigStruct`,
`Table`, `TableStruct`) expose no `text` attribute in the source and none of
the verified properties depends on their internal structure, so the
corresponding items keep the source element unexamined.
-/
inductive Content : Type where
  | text (s : String)
  | ruby (rt : Option (List String)) (s : String)
  | sup (s : String)
  | sub (s : String)
  | fig (src : String)
  | arithFormula (num : Option Nat) (figs : Option (List String))
  | line (contents : List Content)
  | quoteStruct (contents : List Content)
  | sentence (contents : List Content)
  | listElem (raw : XmlElem)
  | figStruct (raw : XmlElem)
  | table (raw : XmlElem)
  | tableStruct (raw : XmlElem)

/--
The `Text(text=...)` runs the resolvers emit for head and tail text: one
`PlainText` item when the string is present, nothing when it is absent.  The
source guards with `is not None`.
-/
def optTextItems : Option String → List Content
  | none => []
  | some s => [.text s]

/-- A required pydantic text field: the element's text, error when absent. -/
def requiredText : Option String → Except String String
  | some s => .ok s
  | none => .error "ValidationError: text is required"

/-- The numeric value of a non-empty run of decimal digits, `none` when a
non-digit occurs. -/
def decDigits : List Char → Nat → Option Nat
  | [], acc => some acc
  | c :: cs, acc =>
      if c.isDigit then decDigits cs (acc * 10 + (c.toNat - 48)) else none

/--
Python `int(s)` on an attribute string, as pydantic coerces integer fields:
an optional leading minus sign followed by decimal digits.  (Python's `int`
also tolerates surrounding whitespace and an explicit plus sign; those forms
never occur in attribute values and are not modelled.)
-/
def pyInt (s : String) : Except String Int :=
  match s.data with
  | '-' :: c :: cs =>
      match decDigits (c :: cs) 0 with
      | some n => .ok (-(n : Int))
      | none => .error "ValueError: invalid literal for int"
  | c :: cs =>
      match decDigits (c :: cs) 0 with
      | some n => .ok ((n : Int))
      | none => .error "ValueError: invalid literal for int"
  | [] => .error "ValueError: invalid literal for int"

/-- The texts of the `Rt` children of a `Ruby` element (`rt` field). -/
def rubyRtTexts : List XmlElem → Except String (List String)
  | [] => .ok []
  | c :: cs =>
      if c.tag = "Rt" then do
        let t ← requiredText c.text
        let rest ← rubyRtTexts cs
        .ok (t :: rest)
      else rubyRtTexts cs

/-- Source: `Ruby.from_xml_tree`: `rt` from the `Rt` children, `text` required. -/
def rubyFromXml (txt : Option String) (ch : List XmlElem) : Except String Content := do
  let rts ← rubyRtTexts ch
  let s ← requiredText txt
  pure (.ruby (if rts.isEmpty then none else some rts) s)

/-- Source: `Sup.from_xml_tree`: required text content. -/
def supFromXml (txt : Option String) : Except String Content := do
  pure (.sup (← requiredText txt))

/-- Source: `Sub.from_xml_tree`: required text content. -/
def subFromXml (txt : Option String) : Except String Content := do
  pure (.sub (← requiredText txt))

/-- Source: `Fig.from_xml_tree`: the required `src` attribute. -/
def figFromXml (attrs : List (String × String)) : Except String Content :=
  match attrs.lookup "src" with
  | some s => .ok (.fig s)
  | none => .error "ValidationError: src attribute is required"

/-- The `src` attributes of the `Fig` children of an `ArithFormula`. -/
def figSrcs : List XmlElem → Except String (List String)
  | [] => .ok []
  | c :: cs =>
      if c.tag = "Fig" then do
        let s ← match c.attrs.lookup "src" with
          | some s => Except.ok s
          | none => Except.error "ValidationError: src attribute is required"
        let rest ← figSrcs cs
        .ok (s :: rest)
      else figSrcs cs

/--
`ArithFormula.from_xml_tree`: optional `Num` attribute validated as a
`NonNegativeInt`, optional `Fig` children.
-/
def arithFormulaFromXml (attrs : List (String × String)) (ch : List XmlElem) :
    Except String Content := do
  let num ← match attrs.lookup "Num" with
    | none => pure none
    | some s => do
        let n ← pyInt s
        if n < 0 then .error "ValidationError: NonNegativeInt" else pure (some n.toNat)
  let srcs ← figSrcs ch
  pure (.arithFormula num (if srcs.isEmpty then none else some srcs))

/-!
The mixed-content resolvers.  Each context walks the element's children in
document order; a child whose tag the context does not recognise raises
`NotImplementedError`.  The source constructs lazy wrapper objects
(`Line(raw_element=elm)`, `QuoteStruct(raw_element=elm)`,
`Sentence(raw_element=elm)`) whose own `contents` resolve on first access;
this embedding resolves them recursively up front, which yields the same
item tree whenever every access would succeed and an error whenever some
access would raise.
-/

mutual

/-- Child dispatch of `Sentence.contents` (model.py:410-424): tags `Line`,
`QuoteStruct`, `ArithFormula`, `Ruby`, `Sup`, `Sub`. -/
def sentenceDispatch : XmlElem → Except String Content
  | .mk t attrs txt ch _ =>
      if t = "Line" then do
        let rest ← lineChildren ch
        pure (.line (optTextItems txt ++ rest))
      else if t = "QuoteStruct" then do
        let rest ← quoteChildren ch
        pure (.quoteStruct (optTextItems txt ++ rest))
      else if t = "ArithFormula" then arithFormulaFromXml attrs ch
      else if t = "Ruby" then rubyFromXml txt ch
      else if t = "Sup" then supFromXml txt
      else if t = "Sub" then subFromXml txt
      else .error "NotImplementedError"

/-- Child dispatch of `Line.contents` (model.py:188-200): tags `QuoteStruct`,
`ArithFormula`, `Ruby`, `Sup`, `Sub`. -/
def lineDispatch : XmlElem → Except String Content
  | .mk t attrs txt ch _ =>
      if t = "QuoteStruct" then do
        let rest ← quoteChildren ch
        pure (.quoteStruct (optTextItems txt ++ rest))
      else if t = "ArithFormula" then arithFormulaFromXml attrs ch
      else if t = "Ruby" then rubyFromXml txt ch
      else if t = "Sup" then supFromXml txt
      else if t = "Sub" then subFromXml txt
      else .error "NotImplementedError"

/-- Child dispatch of `QuoteStruct.contents` (model.py:111-127): tags
`Sentence`, `List`, `Fig`, `FigStruct`, `Table`, `TableStruct`,
`ArithFormula`. -/
def quoteDispatch : XmlElem → Except String Content
  | .mk t attrs txt ch tl =>
      if t = "Sentence" then do
        let rest ← sentenceChildren ch
        pure (.sentence (optTextItems txt ++ rest))
      else if t = "List" then pure (.listElem (.mk t attrs txt ch tl))
      else if t = "Fig" then figFromXml attrs
      else if t = "FigStruct" then pure (.figStruct (.mk t attrs txt ch tl))
      else if t = "Table" then pure (.table (.mk t attrs txt ch tl))
      else if t = "TableStruct" then pure (.tableStruct (.mk t attrs txt ch tl))
      else if t = "ArithFormula" then arithFormulaFromXml attrs ch
      else .error (t ++ " is not implemented yet")

/-- Child dispatch of `TaggedText.tagged_text` (model.py:240-250): tags
`Line`, `Ruby`, `Sup`, `Sub`. -/
def taggedDispatch : XmlElem → Except String Content
  | .mk t _ txt ch _ =>
      if t = "Line" then do
        let rest ← lineChildren ch
        pure (.line (optTextItems txt ++ rest))
      else if t = "Ruby" then rubyFromXml txt ch
      else if t = "Sup" then supFromXml txt
      else if t = "Sub" then subFromXml txt
      else .error "NotImplementedError"

/-- The child loop of `Sentence.contents`: resolved item, then one `Text`
item for the tail text when present, then the remaining children. -/
def sentenceChildren : List XmlElem → Except String (List Content)
  | [] => pure []
  | c :: cs => do
      let item ← sentenceDispatch c
      let rest ← sentenceChildren cs
      pure (item :: (optTextItems c.tail ++ rest))

/-- The child loop of `Line.contents`. -/
def lineChildren : List XmlElem → Except String (List Content)
  | [] => pure []
  | c :: cs => do
      let item ← lineDispatch c
      let rest ← lineChildren cs
      pure (item :: (optTextItems c.tail ++ rest))

/-- The child loop of `QuoteStruct.contents`. -/
def quoteChildren : List XmlElem → Except String (List Content)
  | [] => pure []
  | c :: cs => do
      let item ← quoteDispatch c
      let rest ← quoteChildren cs
      pure (item :: (optTextItems c.tail ++ rest))

/-- The child loop of `TaggedText.tagged_text`. -/
def taggedChildren : List XmlElem → Except String (List Content)
  | [] => pure []
  | c :: cs => do
      let item ← taggedDispatch c
      let rest ← taggedChildren cs
      pure (item :: (optTextItems c.tail ++ rest))

end

/-- Source: `Sentence.contents` (model.py:399-430): head text when present, then the
child loop. -/
def Sentence.contents : XmlElem → Except String (List Content)
  | .mk _ _ txt ch _ => do
      let rest ← sentenceChildren ch
      pure (optTextItems txt ++ rest)

/-- Source: `Line.contents` (model.py:177-206). -/
def Line.contents : XmlElem → Except String (List Content)
  | .mk _ _ txt ch _ => do
      let rest ← lineChildren ch
      pure (optTextItems txt ++ rest)

/-- Source: `QuoteStruct.contents` (model.py:100-133). -/
def QuoteStruct.contents : XmlElem → Except String (List Content)
  | .mk _ _ txt ch _ => do
      let rest ← quoteChildren ch
      pure (optTextItems txt ++ rest)

/-- Source: `TaggedText.tagged_text` (model.py:229-256). -/
def TaggedText.tagged_text : XmlElem → Except String (List Content)
  | .mk _ _ txt ch _ => do
      let rest ← taggedChildren ch
      pure (optTextItems txt ++ rest)

example :
    Sentence.contents
      (.mk "Sentence" [] (some "head")
        [.mk "ArithFormula" [] none [] (some "tailA"),
         .mk "ArithFormula" [] none [] (some "tailB")] none)
    = .ok [.text "head", .arithFormula none none, .text "tailA",
           .arithFormula none none, .text "tailB"] := rfl

example :
    QuoteStruct.contents
      (.mk "QuoteStruct" [] none [.mk "Div" [] none [] none] none)
    = .error "Div is not implemented yet" := rfl

/-!
Attribute accessors.  Enumerated attributes map the raw string to itself when
it is in the closed set and raise `NotImplementedError` otherwise; integer
attributes go through `int(...)`.  Absence is `ok none` throughout.
-/

/-- Source: `Sentence.num` (model.py:330-336): `int(num)` when the `Num` attribute is
present, absent otherwise. -/
def Sentence.num (e : XmlElem) : Except String (Option Int) :=
  match get_attr e "Num" with
  | none => .ok none
  | some s => (pyInt s).map some

/-- Source: `Sentence.function` (model.py:338-348): `"main"` or `"proviso"`, any
other present value raises `NotImplementedError`. -/
def Sentence.function (e : XmlElem) : Except String (Option String) :=
  match get_attr e "Function" with
  | none => .ok none
  | some s =>
      if s = "main" then .ok (some "main")
      else if s = "proviso" then .ok (some "proviso")
      else .error "NotImplementedError"

/-- The closed value set of `Sentence.indent` (model.py:350-397). -/
def indentValues : List String :=
  ["Paragraph", "Item", "Subitem1", "Subitem2", "Subitem3", "Subitem4",
   "Subitem5", "Subitem6", "Subitem7", "Subitem8", "Subitem9", "Subitem10"]

/-- Source: `Sentence.indent` (model.py:350-397): one of the twelve indent levels,
any other present value raises `NotImplementedError`. -/
def Sentence.indent (e : XmlElem) : Except String (Option String) :=
  match get_attr e "Indent" with
  | none => .ok none
  | some s => if s ∈ indentValues then .ok (some s) else .error "NotImplementedError"

/-- Source: `WithWritingMode.writing_mode` (model.py:301-311): `"vertical"` or
`"horizontal"`, any other present value raises `NotImplementedError`. -/
def writing_mode (e : XmlElem) : Except String (Option String) :=
  match get_attr e "WritingMode" with
  | none => .ok none
  | some s =>
      if s = "vertical" then .ok (some "vertical")
      else if s = "horizontal" then .ok (some "horizontal")
      else .error "NotImplementedError"

/-- Source: `Line.style` (model.py:161-175): `"solid"`, `"dotted"`, `"double"` or
`"none"`, any other present value raises `NotImplementedError`. -/
def Line.style (e : XmlElem) : Except String (Option String) :=
  match get_attr e "Style" with
  | none => .ok none
  | some s =>
      if s = "solid" ∨ s = "dotted" ∨ s = "double" ∨ s = "none" then .ok (some s)
      else .error "NotImplementedError"

/-- Source: `LawTitle.kana` (model.py:859-861): `raw_element.get(key="Kana")`. -/
def LawTitle.kana (e : XmlElem) : Option String :=
  e.attrs.lookup "Kana"

/-- Source: `LawTitle.abbrev` (model.py:863-865). -/
def LawTitle.abbrev (e : XmlElem) : Option String :=
  e.attrs.lookup "Abbrev"

/-- Source: `LawTitle.abbrev_kana` (model.py:867-869). -/
def LawTitle.abbrev_kana (e : XmlElem) : Option String :=
  e.attrs.lookup "AbbrevKana"

/-!
The `text` accessor of a resolved content item.  Every content class except
the four structural ones (`Fig`, `List`, `FigStruct`, `Table`, `TableStruct`
— `Fig` carries only `src`) exposes `text`; `hasattr(content, "text")` is
modelled as `contentText` being `some`.  `ArithFormula.text` is the constant
empty string (model.py:82-86); `Line.text`, `QuoteStruct.text` and
`Sentence.text` fold their own contents.
-/

mutual

/-- The `text` attribute of a content item, `none` when the item's class has
no such attribute. -/
def contentText : Content → Option String
  | .text s => some s
  | .ruby _ s => some s
  | .sup s => some s
  | .sub s => some s
  | .fig _ => none
  | .arithFormula _ _ => some ""
  | .line cs => some (contentsText cs)
  | .quoteStruct cs => some (contentsText cs)
  | .sentence cs => some (contentsText cs)
  | .listElem _ => none
  | .figStruct _ => none
  | .table _ => none
  | .tableStruct _ => none

/--
The fold shared by `Sentence.text`, `Line.text` and `QuoteStruct.text`: the
items' texts concatenated in sequence order.  `QuoteStruct.text` skips items
without a `text` attribute (`hasattr` guard, model.py:135-142), which is the
same as contributing the empty string; in the `Sentence` and `Line` contexts
every resolvable item has a `text` attribute (`contentText_isSome_of_*`
below), so the unguarded `content.text` access of those contexts never
raises and also agrees with this fold.
-/
def contentsText : List Content → String
  | [] => ""
  | c :: cs => (contentText c).getD "" ++ contentsText cs

end

/-- Source: `Sentence.text` (model.py:432-439). -/
def Sentence.text (e : XmlElem) : Except String String :=
  (Sentence.contents e).map contentsText

/-- Source: `Line.text` (model.py:208-215). -/
def Line.text (e : XmlElem) : Except String String :=
  (Line.contents e).map contentsText

/-- Source: `QuoteStruct.text` (model.py:135-142). -/
def QuoteStruct.text (e : XmlElem) : Except String String :=
  (QuoteStruct.contents e).map contentsText

/--
The per-child contribution of the direct walk of `TaggedText.text`
(model.py:269-279): the child's own flattened text (`Ruby(...).text`,
`Line(...).text`, `Sup(...).text`, `Sub(...).text`); any other tag raises.
-/
def taggedTextPiece : XmlElem → Except String String
  | .mk t _ txt ch _ =>
      if t = "Ruby" then do
        let i ← rubyFromXml txt ch
        pure ((contentText i).getD "")
      else if t = "Line" then do
        let rest ← lineChildren ch
        pure (contentsText (optTextItems txt ++ rest))
      else if t = "Sup" then do
        let i ← supFromXml txt
        pure ((contentText i).getD "")
      else if t = "Sub" then do
        let i ← subFromXml txt
        pure ((contentText i).getD "")
      else .error ("tag: " ++ t ++ " is not supported yet")

/-- The child loop of the direct walk of `TaggedText.text`: contribution,
then tail text, per child. -/
def taggedTextChildren : List XmlElem → Except String String
  | [] => .ok ""
  | c :: cs => do
      let piece ← taggedTextPiece c
      let rest ← taggedTextChildren cs
      pure (piece ++ (c.tail.getD "" ++ rest))

/--
`TaggedText.text` (model.py:258-285): unlike the three accessors above it
does not fold `tagged_text` but re-walks the element directly — head text,
then per child the child's own flattened text followed by the child's tail
text.
-/
def TaggedText.text : XmlElem → Except String String
  | .mk _ _ txt ch _ => do
      let rest ← taggedTextChildren ch
      pure (txt.getD "" ++ rest)

example :
    TaggedText.text (.mk "LawTitle" [("Kana", "たいとる"), ("Abbrev", "")]
      (some "タイトル") [] none) = .ok "タイトル" := rfl

/-!
The declarative (pydantic-xml driven) child bindings: a single child field
binds the first sub-element with the declared tag, a list field binds every
sub-element with the declared tag in document order.
-/

/-- The first child with the given tag (single-valued `element(tag=...)`). -/
def findChild (e : XmlElem) (t : String) : Option XmlElem :=
  e.children.find? (fun c => c.tag == t)

/-- All children with the given tag, in document order (list-valued
`element(tag=...)`). -/
def childrenTagged (e : XmlElem) (t : String) : List XmlElem :=
  e.children.filter (fun c => c.tag == t)

/-- A required single child: pydantic raises a required-field validation
error when it is missing. -/
def requiredChild (e : XmlElem) (t : String) : Except String XmlElem :=
  match findChild e t with
  | some c => .ok c
  | none => .error ("ValidationError: field required: " ++ t)

/-!
The `texts()` traversals, bottom-up.  Each mirrors the generator of the
corresponding class; the lazy generator is modelled as the list of yielded
strings, with an error wherever an access inside the generator would raise.
The source's `TODO` fields (tables, deeper sub-item levels, lists) are
likewise not walked here.
-/

/-- Source: `Column.texts` (model.py:1763-1766): the `text` of each `Sentence`. -/
def Column.texts (e : XmlElem) : Except String (List String) :=
  (childrenTagged e "Sentence").mapM Sentence.text

/-- Source: `ItemSentence.texts` (model.py:1889-1897): sentence texts, then column
texts. -/
def ItemSentence.texts (e : XmlElem) : Except String (List String) := do
  let s ← (childrenTagged e "Sentence").mapM Sentence.text
  let cols ← (childrenTagged e "Column").mapM Column.texts
  pure (s ++ cols.flatten)

/-- Source: `Subitem1Sentence.texts` (model.py:2105-2113): sentence texts, then
column texts (`table` is a `TODO` in the source). -/
def Subitem1Sentence.texts (e : XmlElem) : Except String (List String) := do
  let s ← (childrenTagged e "Sentence").mapM Sentence.text
  let cols ← (childrenTagged e "Column").mapM Column.texts
  pure (s ++ cols.flatten)

/-- The optional-title contribution shared by the `texts()` generators: the
title's flattened text when the title child is present, nothing otherwise. -/
def titleTexts (e : XmlElem) (t : String) : Except String (List String) :=
  match findChild e t with
  | none => .ok []
  | some tE => (TaggedText.text tE).map (fun s => [s])

/-- Source: `Subitem1.texts` (model.py:2539-2552): optional title, then the required
`Subitem1Sentence` (`subitems2` and the struct lists are `TODO`s). -/
def Subitem1.texts (e : XmlElem) : Except String (List String) := do
  let title ← titleTexts e "Subitem1Title"
  let sE ← requiredChild e "Subitem1Sentence"
  let s ← Subitem1Sentence.texts sE
  pure (title ++ s)

/-- Source: `Item.texts` (model.py:2584-2593): optional title, the required
`ItemSentence`, then the `Subitem1` children (other fields are `TODO`s). -/
def Item.texts (e : XmlElem) : Except String (List String) := do
  let title ← titleTexts e "ItemTitle"
  let isE ← requiredChild e "ItemSentence"
  let ist ← ItemSentence.texts isE
  let subs ← (childrenTagged e "Subitem1").mapM Subitem1.texts
  pure (title ++ ist ++ subs.flatten)

/-- Source: `ParagraphSentence.texts` (model.py:2644-2647). -/
def ParagraphSentence.texts (e : XmlElem) : Except String (List String) :=
  (childrenTagged e "Sentence").mapM Sentence.text

/-- Source: `Paragraph.texts` (model.py:2684-2691): the required
`ParagraphSentence`, then the `Item` children (other fields are `TODO`s). -/
def Paragraph.texts (e : XmlElem) : Except String (List String) := do
  let psE ← requiredChild e "ParagraphSentence"
  let ps ← ParagraphSentence.texts psE
  let items ← (childrenTagged e "Item").mapM Item.texts
  pure (ps ++ items.flatten)

/-- Source: `Article.texts` (model.py:2721-2734): optional caption, required title,
paragraphs, optional supplementary note. -/
def Article.texts (e : XmlElem) : Except String (List String) := do
  let caption ← titleTexts e "ArticleCaption"
  let tE ← requiredChild e "ArticleTitle"
  let t ← TaggedText.text tE
  let paras ← (childrenTagged e "Paragraph").mapM Paragraph.texts
  let note ← titleTexts e "SupplNote"
  pure (caption ++ [t] ++ paras.flatten ++ note)

/-- Source: `Division.texts` (model.py:2756-2762): optional title, then articles. -/
def Division.texts (e : XmlElem) : Except String (List String) := do
  let title ← titleTexts e "DivisionTitle"
  let arts ← (childrenTagged e "Article").mapM Article.texts
  pure (title ++ arts.flatten)

/-- Source: `Subsection.texts` (model.py:2786-2796): optional title, articles,
divisions. -/
def Subsection.texts (e : XmlElem) : Except String (List String) := do
  let title ← titleTexts e "SubsectionTitle"
  let arts ← (childrenTagged e "Article").mapM Article.texts
  let divs ← (childrenTagged e "Division").mapM Division.texts
  pure (title ++ arts.flatten ++ divs.flatten)

/-- Source: `Section.texts` (model.py:2822-2836): optional title, articles,
subsections, divisions. -/
def Section.texts (e : XmlElem) : Except String (List String) := do
  let title ← titleTexts e "SectionTitle"
  let arts ← (childrenTagged e "Article").mapM Article.texts
  let subs ← (childrenTagged e "Subsection").mapM Subsection.texts
  let divs ← (childrenTagged e "Division").mapM Division.texts
  pure (title ++ arts.flatten ++ subs.flatten ++ divs.flatten)

/-- Source: `Chapter.texts` (model.py:2860-2870): optional title, articles,
sections. -/
def Chapter.texts (e : XmlElem) : Except String (List String) := do
  let title ← titleTexts e "ChapterTitle"
  let arts ← (childrenTagged e "Article").mapM Article.texts
  let secs ← (childrenTagged e "Section").mapM Section.texts
  pure (title ++ arts.flatten ++ secs.flatten)

/-- Source: `Part.texts` (model.py:2894-2904): optional title, articles, chapters. -/
def Part.texts (e : XmlElem) : Except String (List String) := do
  let title ← titleTexts e "PartTitle"
  let arts ← (childrenTagged e "Article").mapM Article.texts
  let chaps ← (childrenTagged e "Chapter").mapM Chapter.texts
  pure (title ++ arts.flatten ++ chaps.flatten)

/-- Source: `MainProvision.texts` (model.py:3082-3102): parts, chapters, sections,
articles, paragraphs in that order. -/
def MainProvision.texts (e : XmlElem) : Except String (List String) := do
  let parts ← (childrenTagged e "Part").mapM Part.texts
  let chaps ← (childrenTagged e "Chapter").mapM Chapter.texts
  let secs ← (childrenTagged e "Section").mapM Section.texts
  let arts ← (childrenTagged e "Article").mapM Article.texts
  let paras ← (childrenTagged e "Paragraph").mapM Paragraph.texts
  pure (parts.flatten ++ chaps.flatten ++ secs.flatten ++ arts.flatten ++ paras.flatten)

/-- Source: `LawBody.texts` (model.py:3345-3353): law title text when present, then
enact statement text when present, then the main provision's texts; the
preamble, supplementary provisions and appendix fields are not walked
(`TODO` in the source). -/
def LawBody.texts (e : XmlElem) : Except String (List String) := do
  let title ← titleTexts e "LawTitle"
  let enact ← titleTexts e "EnactStatement"
  let mpE ← requiredChild e "MainProvision"
  let mp ← MainProvision.texts mpE
  pure (title ++ enact ++ mp)

/-- Source: `Law.texts` (model.py:3513-3515): delegates to the law body. -/
def Law.texts (e : XmlElem) : Except String (List String) := do
  let bE ← requiredChild e "LawBody"
  LawBody.texts bE

/-!
Document construction (claim C9).  `LawParser.parse_from` is
`Law.from_xml`: the root `Law` element is validated against the declared
required attributes and children.  The embedding models the declarative
parse at the depth the verified claims reach — the required fields of `Law`
and `LawBody`; deeper descendants are kept as raw elements (their own
required fields can make the real parse fail in more cases, never in
fewer).
-/

/-- The closed `LawType` enumeration (model.py:3497-3505). -/
def lawTypeValues : List String :=
  ["Constitution", "Act", "CabinetOrder", "ImperialOrder",
   "MinisterialOrdinance", "Rule", "Misc"]

/-- The parsed `LawBody` (model.py:3306-3343): required `main_provision`,
optional title/enact-statement/toc/preamble, optional lists of
supplementary-provision and appendix children. -/
structure LawBodyDoc : Type where
  subject : Option String
  law_title : Option XmlElem
  enact_statement : Option XmlElem
  toc : Option XmlElem
  preamble : Option XmlElem
  main_provision : XmlElem
  suppl_provisions : List XmlElem
  appdx_tables : List XmlElem
  appdx_notes : List XmlElem
  appdx_styles : List XmlElem
  appdx : List XmlElem
  appdx_figs : List XmlElem
  appdx_formats : List XmlElem

/-- The parsed `Law` (model.py:3476-3511): required identity attributes,
required `law_num` label and required `law_body`. -/
structure LawDoc : Type where
  era : String
  year : Int
  num : Int
  law_type : String
  lang : String
  promulgate_month : Option Int
  promulgate_day : Option Int
  law_num : String
  law_body : LawBodyDoc

/-- A pydantic validation check: ok when the condition holds, a validation
error otherwise. -/
def ensure (b : Bool) (msg : String) : Except String Unit :=
  if b then .ok () else .error msg

/-- A required attribute (pydantic `attr` with no default). -/
def requiredAttr (e : XmlElem) (t : String) : Except String String :=
  match get_attr e t with
  | some s => .ok s
  | none => .error ("ValidationError: attribute required: " ++ t)

/-- An optional `PositiveInt` attribute. -/
def optPositiveIntAttr (e : XmlElem) (t : String) : Except String (Option Int) :=
  match get_attr e t with
  | none => .ok none
  | some s => do
      let n ← pyInt s
      if n ≤ 0 then .error "ValidationError: PositiveInt" else pure (some n)

/-- Construction of `LawBody` from its element: the `main_provision` field
is required, everything else optional. -/
def lawBodyFromXml (e : XmlElem) : Except String LawBodyDoc := do
  let mp ← requiredChild e "MainProvision"
  pure { subject := get_attr e "Subject"
         law_title := findChild e "LawTitle"
         enact_statement := findChild e "EnactStatement"
         toc := findChild e "TOC"
         preamble := findChild e "Preamble"
         main_provision := mp
         suppl_provisions := childrenTagged e "SupplProvision"
         appdx_tables := childrenTagged e "AppdxTable"
         appdx_notes := childrenTagged e "AppdxNote"
         appdx_styles := childrenTagged e "AppdxStyle"
         appdx := childrenTagged e "Appdx"
         appdx_figs := childrenTagged e "AppdxFig"
         appdx_formats := childrenTagged e "AppdxFormat" }

/-- Source: `Law.from_xml`: root tag check, the typed identity attributes, the
required `LawNum` label and the required `LawBody`. -/
def lawFromXml (e : XmlElem) : Except String LawDoc := do
  if e.tag ≠ "Law" then
    .error "ValidationError: root tag must be Law"
  else
    let era ← requiredAttr e "Era"
    let yearS ← requiredAttr e "Year"
    let year ← pyInt yearS
    let _ ← ensure (decide (0 < year)) "ValidationError: PositiveInt"
    let numS ← requiredAttr e "Num"
    let num ← pyInt numS
    let _ ← ensure (decide (0 ≤ num)) "ValidationError: NonNegativeInt"
    let lawType ← requiredAttr e "LawType"
    let _ ← ensure (decide (lawType ∈ lawTypeValues)) "ValidationError: LawType"
    let lang ← requiredAttr e "Lang"
    let _ ← ensure (lang == "ja" || lang == "en") "ValidationError: Lang"
    let pm ← optPositiveIntAttr e "PromulgateMonth"
    let pd ← optPositiveIntAttr e "PromulgateDay"
    let lawNumE ← requiredChild e "LawNum"
    let lawNum ← requiredText lawNumE.text
    let bodyE ← requiredChild e "LawBody"
    let body ← lawBodyFromXml bodyE
    pure { era := era, year := year, num := num, law_type := lawType,
           lang := lang, promulgate_month := pm, promulgate_day := pd,
           law_num := lawNum, law_body := body }

/-- Source: `LawParser.parse_from` (parser.py:25-35): `Law.from_xml` on the parsed
root element (byte/string decoding belongs to the excluded lxml
provider). -/
def LawParser.parse_from (root : XmlElem) : Except String LawDoc :=
  lawFromXml root

/-!
Well-formedness of provider output: lxml represents missing head/tail text
as `None` and never yields an empty text string, so every `text`/`tail`
field is either absent or non-empty.
-/

/-- Absent or non-empty. -/
def okTextB (o : Option String) : Bool :=
  match o with
  | none => true
  | some s => decide (s ≠ "")

mutual

/-- Every `text` and `tail` in the tree is absent or non-empty. -/
def wfTexts : XmlElem → Bool
  | .mk _ _ txt ch tl => okTextB txt && okTextB tl && wfTextsList ch

def wfTextsList : List XmlElem → Bool
  | [] => true
  | c :: cs => wfTexts c && wfTextsList cs

end

/--
Modelled from the spec (ordering invariant, §3): a text run contributes one
`PlainText` item when the text is non-empty and nothing otherwise.
-/
def specTextRun : Option String → List Content
  | none => []
  | some s => if s = "" then [] else [.text s]

/--
Modelled from the spec (ordering invariant, §3 / §8): head text run first,
then for each child element in source order its resolved item followed
immediately by that child's tail text run.
-/
def specResolved (txt : Option String) (ch : List XmlElem) (items : List Content) :
    List Content :=
  specTextRun txt ++ (ch.zip items).flatMap (fun p => p.2 :: specTextRun p.1.tail)

theorem optTextItems_eq_specTextRun {o : Option String} (h : okTextB o = true) :
    optTextItems o = specTextRun o := by
  cases o with
  | none => rfl
  | some s =>
      simp [okTextB] at h
      simp [optTextItems, specTextRun, h]

theorem wfTexts_tail {c : XmlElem} (h : wfTexts c = true) : okTextB c.tail = true := by
  cases c with
  | mk t a txt ch tl =>
      simp [wfTexts] at h
      simpa [XmlElem.tail] using h.1.2

/--
The shape shared by the four child loops: when every child's dispatch
succeeds, the loop succeeds with exactly the spec's interleaving of items
and tail text runs.
-/
theorem childLoop_ok_of_forall (disp : XmlElem → Except String Content)
    (childrenF : List XmlElem → Except String (List Content))
    (hnil : childrenF [] = .ok [])
    (hcons : ∀ c cs, childrenF (c :: cs) = do
        let item ← disp c
        let rest ← childrenF cs
        pure (item :: (optTextItems c.tail ++ rest))) :
    ∀ ch items, wfTextsList ch = true →
      List.Forall₂ (fun c i => disp c = .ok i) ch items →
      childrenF ch =
        .ok ((ch.zip items).flatMap (fun p => p.2 :: specTextRun p.1.tail)) := by
  intro ch items hwf hall
  induction hall with
  | nil => simpa using hnil
  | cons hdisp htail ih =>
      rename_i c i cs is
      simp [wfTextsList] at hwf
      have hrest := ih hwf.2
      rw [hcons, hdisp, hrest]
      simp [Bind.bind, Except.bind, pure, Except.pure,
        optTextItems_eq_specTextRun (wfTexts_tail hwf.1)]

/--
The shape shared by the four child loops: a child whose dispatch raises
makes the whole loop raise (nothing is skipped, no partial list returned).
-/
theorem childLoop_error_of_mem (disp : XmlElem → Except String Content)
    (childrenF : List XmlElem → Except String (List Content))
    (hcons : ∀ c cs, childrenF (c :: cs) = do
        let item ← disp c
        let rest ← childrenF cs
        pure (item :: (optTextItems c.tail ++ rest))) :
    ∀ ch c, c ∈ ch → (∃ m, disp c = .error m) →
      ∃ m, childrenF ch = .error m := by
  intro ch c hmem herr
  induction ch with
  | nil => cases hmem
  | cons hd tl ih =>
      rw [hcons]
      rcases List.mem_cons.mp hmem with heq | htl
      · subst heq
        obtain ⟨m, hm⟩ := herr
        exact ⟨m, by simp [hm, Bind.bind, Except.bind]⟩
      · cases hd' : disp hd with
        | error m => exact ⟨m, by simp [hd', Bind.bind, Except.bind]⟩
        | ok i =>
            obtain ⟨m, hm⟩ := ih htl
            exact ⟨m, by simp [hd', hm, Bind.bind, Except.bind]⟩

/-- C1, sentence-context instance. -/
theorem sentence_contents_spec {t a txt ch tl items}
    (hwf : wfTexts (.mk t a txt ch tl) = true)
    (hall : List.Forall₂ (fun c i => sentenceDispatch c = .ok i) ch items) :
    Sentence.contents (.mk t a txt ch tl) = .ok (specResolved txt ch items) := by
  simp [wfTexts] at hwf
  have h := childLoop_ok_of_forall sentenceDispatch sentenceChildren rfl
    (fun _ _ => rfl) ch items hwf.2 hall
  simp [Sentence.contents, h, Bind.bind, Except.bind, pure, Except.pure,
    specResolved, optTextItems_eq_specTextRun hwf.1.1]

/-- C1, line-context instance. -/
theorem line_contents_spec {t a txt ch tl items}
    (hwf : wfTexts (.mk t a txt ch tl) = true)
    (hall : List.Forall₂ (fun c i => lineDispatch c = .ok i) ch items) :
    Line.contents (.mk t a txt ch tl) = .ok (specResolved txt ch items) := by
  simp [wfTexts] at hwf
  have h := childLoop_ok_of_forall lineDispatch lineChildren rfl
    (fun _ _ => rfl) ch items hwf.2 hall
  simp [Line.contents, h, Bind.bind, Except.bind, pure, Except.pure,
    specResolved, optTextItems_eq_specTextRun hwf.1.1]

/-- C1, quote-struct-context instance. -/
theorem quote_contents_spec {t a txt ch tl items}
    (hwf : wfTexts (.mk t a txt ch tl) = true)
    (hall : List.Forall₂ (fun c i => quoteDispatch c = .ok i) ch items) :
    QuoteStruct.contents (.mk t a txt ch tl) = .ok (specResolved txt ch items) := by
  simp [wfTexts] at hwf
  have h := childLoop_ok_of_forall quoteDispatch quoteChildren rfl
    (fun _ _ => rfl) ch items hwf.2 hall
  simp [QuoteStruct.contents, h, Bind.bind, Except.bind, pure, Except.pure,
    specResolved, optTextItems_eq_specTextRun hwf.1.1]

/-- C1, tagged-text-context instance. -/
theorem tagged_contents_spec {t a txt ch tl items}
    (hwf : wfTexts (.mk t a txt ch tl) = true)
    (hall : List.Forall₂ (fun c i => taggedDispatch c = .ok i) ch items) :
    TaggedText.tagged_text (.mk t a txt ch tl) = .ok (specResolved txt ch items) := by
  simp [wfTexts] at hwf
  have h := childLoop_ok_of_forall taggedDispatch taggedChildren rfl
    (fun _ _ => rfl) ch items hwf.2 hall
  simp [TaggedText.tagged_text, h, Bind.bind, Except.bind, pure, Except.pure,
    specResolved, optTextItems_eq_specTextRun hwf.1.1]

/--
C1: each of the four mixed-content resolvers (`Sentence.contents`,
`QuoteStruct.contents`, `Line.contents`, `TaggedText.tagged_text`) preserves
document order exactly — a `PlainText` item for the non-empty head text
first, then for each child in source order its resolved item followed
immediately by a `PlainText` item for that child's non-empty tail text; no
item dropped, reordered or merged.
-/
theorem c1_order_preservation :
    (∀ t a txt ch tl items, wfTexts (.mk t a txt ch tl) = true →
      List.Forall₂ (fun c i => sentenceDispatch c = .ok i) ch items →
      Sentence.contents (.mk t a txt ch tl) = .ok (specResolved txt ch items)) ∧
    (∀ t a txt ch tl items, wfTexts (.mk t a txt ch tl) = true →
      List.Forall₂ (fun c i => quoteDispatch c = .ok i) ch items →
      QuoteStruct.contents (.mk t a txt ch tl) = .ok (specResolved txt ch items)) ∧
    (∀ t a txt ch tl items, wfTexts (.mk t a txt ch tl) = true →
      List.Forall₂ (fun c i => lineDispatch c = .ok i) ch items →
      Line.contents (.mk t a txt ch tl) = .ok (specResolved txt ch items)) ∧
    (∀ t a txt ch tl items, wfTexts (.mk t a txt ch tl) = true →
      List.Forall₂ (fun c i => taggedDispatch c = .ok i) ch items →
      TaggedText.tagged_text (.mk t a txt ch tl) = .ok (specResolved txt ch items)) :=
  ⟨fun _ _ _ _ _ _ hwf hall => sentence_contents_spec hwf hall,
   fun _ _ _ _ _ _ hwf hall => quote_contents_spec hwf hall,
   fun _ _ _ _ _ _ hwf hall => line_contents_spec hwf hall,
   fun _ _ _ _ _ _ hwf hall => tagged_contents_spec hwf hall⟩

/--
C1 witness: `<Sentence>head<ArithFormula/>tailA<ArithFormula/>tailB</Sentence>`
resolves to exactly
`[PlainText head, item, PlainText tailA, item, PlainText tailB]`.
-/
theorem c1_order_preservation_witness :
    wfTexts (.mk "Sentence" [] (some "head")
      [.mk "ArithFormula" [] none [] (some "tailA"),
       .mk "ArithFormula" [] none [] (some "tailB")] none) = true ∧
    Sentence.contents (.mk "Sentence" [] (some "head")
      [.mk "ArithFormula" [] none [] (some "tailA"),
       .mk "ArithFormula" [] none [] (some "tailB")] none)
      = .ok [.text "head", .arithFormula none none, .text "tailA",
             .arithFormula none none, .text "tailB"] := by
  refine ⟨rfl, ?_⟩
  have h := c1_order_preservation.1 "Sentence" [] (some "head")
    [.mk "ArithFormula" [] none [] (some "tailA"),
     .mk "ArithFormula" [] none [] (some "tailB")] none
    [.arithFormula none none, .arithFormula none none]
    rfl (.cons rfl (.cons rfl .nil))
  simpa [specResolved, specTextRun] using h

/-! Claim C3: closed dispatch — the allowed-kind sets of the calling
contexts, and the fact that an out-of-set child tag is fatal. -/

/-- The tags `Sentence.contents` dispatches on (model.py:411-423). -/
def sentenceContentTags : List String :=
  ["Line", "QuoteStruct", "ArithFormula", "Ruby", "Sup", "Sub"]

/-- The tags `Line.contents` dispatches on (model.py:189-199). -/
def lineContentTags : List String :=
  ["QuoteStruct", "ArithFormula", "Ruby", "Sup", "Sub"]

/-- The tags `QuoteStruct.contents` dispatches on (model.py:112-126). -/
def quoteContentTags : List String :=
  ["Sentence", "List", "Fig", "FigStruct", "Table", "TableStruct", "ArithFormula"]

/-- The tags `TaggedText.tagged_text` dispatches on (model.py:241-249). -/
def taggedContentTags : List String :=
  ["Line", "Ruby", "Sup", "Sub"]

theorem sentenceDispatch_error_of_notMem {c : XmlElem}
    (h : c.tag ∉ sentenceContentTags) : ∃ m, sentenceDispatch c = .error m := by
  cases c with
  | mk t a txt ch tl =>
      simp [XmlElem.tag, sentenceContentTags] at h
      obtain ⟨h1, h2, h3, h4, h5, h6⟩ := h
      exact ⟨"NotImplementedError",
        by simp [sentenceDispatch, h1, h2, h3, h4, h5, h6]⟩

theorem lineDispatch_error_of_notMem {c : XmlElem}
    (h : c.tag ∉ lineContentTags) : ∃ m, lineDispatch c = .error m := by
  cases c with
  | mk t a txt ch tl =>
      simp [XmlElem.tag, lineContentTags] at h
      obtain ⟨h1, h2, h3, h4, h5⟩ := h
      exact ⟨"NotImplementedError", by simp [lineDispatch, h1, h2, h3, h4, h5]⟩

theorem quoteDispatch_error_of_notMem {c : XmlElem}
    (h : c.tag ∉ quoteContentTags) : ∃ m, quoteDispatch c = .error m := by
  cases c with
  | mk t a txt ch tl =>
      simp [XmlElem.tag, quoteContentTags] at h
      obtain ⟨h1, h2, h3, h4, h5, h6, h7⟩ := h
      exact ⟨t ++ " is not implemented yet",
        by simp [quoteDispatch, h1, h2, h3, h4, h5, h6, h7, XmlElem.tag]⟩

theorem taggedDispatch_error_of_notMem {c : XmlElem}
    (h : c.tag ∉ taggedContentTags) : ∃ m, taggedDispatch c = .error m := by
  cases c with
  | mk t a txt ch tl =>
      simp [XmlElem.tag, taggedContentTags] at h
      obtain ⟨h1, h2, h3, h4⟩ := h
      exact ⟨"NotImplementedError", by simp [taggedDispatch, h1, h2, h3, h4]⟩

theorem contents_error_of_children_error {txt : Option String}
    {childrenF : List XmlElem → Except String (List Content)} {ch m}
    (h : childrenF ch = .error m) :
    (do
      let rest ← childrenF ch
      pure (optTextItems txt ++ rest) : Except String (List Content)) = .error m := by
  simp [h, Bind.bind, Except.bind]

/--
C3: in each calling context of the mixed-content resolver, a child element
whose tag name is outside that context's allowed-kind set makes resolution
raise an unsupported-content error — no skipping, no partial sequence.
-/
theorem c3_unsupported_content_fatal :
    (∀ t a txt ch tl c, c ∈ ch → c.tag ∉ sentenceContentTags →
      ∃ m, Sentence.contents (.mk t a txt ch tl) = .error m) ∧
    (∀ t a txt ch tl c, c ∈ ch → c.tag ∉ quoteContentTags →
      ∃ m, QuoteStruct.contents (.mk t a txt ch tl) = .error m) ∧
    (∀ t a txt ch tl c, c ∈ ch → c.tag ∉ lineContentTags →
      ∃ m, Line.contents (.mk t a txt ch tl) = .error m) ∧
    (∀ t a txt ch tl c, c ∈ ch → c.tag ∉ taggedContentTags →
      ∃ m, TaggedText.tagged_text (.mk t a txt ch tl) = .error m) := by
  refine ⟨?_, ?_, ?_, ?_⟩
  · intro t a txt ch tl c hmem htag
    obtain ⟨m, hm⟩ := childLoop_error_of_mem sentenceDispatch sentenceChildren
      (fun _ _ => rfl) ch c hmem (sentenceDispatch_error_of_notMem htag)
    exact ⟨m, by simp [Sentence.contents, hm, Bind.bind, Except.bind]⟩
  · intro t a txt ch tl c hmem htag
    obtain ⟨m, hm⟩ := childLoop_error_of_mem quoteDispatch quoteChildren
      (fun _ _ => rfl) ch c hmem (quoteDispatch_error_of_notMem htag)
    exact ⟨m, by simp [QuoteStruct.contents, hm, Bind.bind, Except.bind]⟩
  · intro t a txt ch tl c hmem htag
    obtain ⟨m, hm⟩ := childLoop_error_of_mem lineDispatch lineChildren
      (fun _ _ => rfl) ch c hmem (lineDispatch_error_of_notMem htag)
    exact ⟨m, by simp [Line.contents, hm, Bind.bind, Except.bind]⟩
  · intro t a txt ch tl c hmem htag
    obtain ⟨m, hm⟩ := childLoop_error_of_mem taggedDispatch taggedChildren
      (fun _ _ => rfl) ch c hmem (taggedDispatch_error_of_notMem htag)
    exact ⟨m, by simp [TaggedText.tagged_text, hm, Bind.bind, Except.bind]⟩

/--
C3 witness: a `Fig` child inside a `Line` (underline-span context) and a
`Paragraph` child inside a `QuoteStruct` are unsupported and fatal.
-/
theorem c3_unsupported_content_fatal_witness :
    ((XmlElem.mk "Fig" [] none [] none) ∈
        [XmlElem.mk "Fig" [] none [] none] ∧
      (XmlElem.mk "Fig" [] none [] none).tag ∉ lineContentTags ∧
      ∃ m, Line.contents
        (.mk "Line" [] (some "x") [.mk "Fig" [] none [] none] none) = .error m) ∧
    ((XmlElem.mk "Paragraph" [] none [] none) ∈
        [XmlElem.mk "Paragraph" [] none [] none] ∧
      (XmlElem.mk "Paragraph" [] none [] none).tag ∉ quoteContentTags ∧
      ∃ m, QuoteStruct.contents
        (.mk "QuoteStruct" [] none [.mk "Paragraph" [] none [] none] none)
          = .error m) := by
  constructor
  · refine ⟨by simp, by simp [XmlElem.tag, lineContentTags], ?_⟩
    exact c3_unsupported_content_fatal.2.2.1 "Line" [] (some "x")
      [.mk "Fig" [] none [] none] none (.mk "Fig" [] none [] none)
      (by simp) (by simp [XmlElem.tag, lineContentTags])
  · refine ⟨by simp, by simp [XmlElem.tag, quoteContentTags], ?_⟩
    exact c3_unsupported_content_fatal.2.1 "QuoteStruct" [] none
      [.mk "Paragraph" [] none [] none] none (.mk "Paragraph" [] none [] none)
      (by simp) (by simp [XmlElem.tag, quoteContentTags])

/-! Claim C2: the text invariant — flattened text equals the concatenation
of the content items' texts, at every nesting depth. -/

theorem contentsText_append (a b : List Content) :
    contentsText (a ++ b) = contentsText a ++ contentsText b := by
  induction a with
  | nil => simp [contentsText]
  | cons c cs ih => simp [contentsText, ih, String.append_assoc]

theorem contentsText_optTextItems (o : Option String) (l : List Content) :
    contentsText (optTextItems o ++ l) = o.getD "" ++ contentsText l := by
  cases o with
  | none => simp [optTextItems]
  | some s => simp [optTextItems, contentsText, contentText]

/-- A successfully dispatched tagged-text child contributes exactly its
resolved item's `text` to the direct walk. -/
theorem taggedTextPiece_of_dispatch {c : XmlElem} {i : Content}
    (hd : taggedDispatch c = .ok i) :
    taggedTextPiece c = .ok ((contentText i).getD "") := by
  cases c with
  | mk t a txt ch tl =>
      simp only [taggedDispatch] at hd
      simp only [taggedTextPiece]
      split_ifs at hd with h1 h2 h3 h4
      · subst h1
        cases hL : lineChildren ch with
        | error m => rw [hL] at hd; simp [Bind.bind, Except.bind] at hd
        | ok lcr =>
            rw [hL] at hd
            simp [Bind.bind, Except.bind, pure, Except.pure] at hd
            subst hd
            simp [hL, Bind.bind, Except.bind, pure, Except.pure, contentText]
      · subst h2
        simp [hd]
      · subst h3
        simp [hd]
      · subst h4
        simp [hd]

/-- When the tagged-text child loop resolves, the direct text walk over the
same children computes the fold of the resolved items. -/
theorem taggedTextChildren_eq_fold :
    ∀ cs items, taggedChildren cs = .ok items →
      taggedTextChildren cs = .ok (contentsText items) := by
  intro cs
  induction cs with
  | nil =>
      intro items h
      simp [taggedChildren, pure, Except.pure] at h
      subst h
      simp [taggedTextChildren, contentsText]
  | cons c rest ih =>
      intro items h
      simp only [taggedChildren] at h
      cases hd : taggedDispatch c with
      | error m => rw [hd] at h; simp [Bind.bind, Except.bind] at h
      | ok i =>
          rw [hd] at h
          cases h2 : taggedChildren rest with
          | error m => rw [h2] at h; simp [Bind.bind, Except.bind] at h
          | ok its =>
              rw [h2] at h
              simp [Bind.bind, Except.bind, pure, Except.pure] at h
              subst h
              have hr := ih its h2
              simp [taggedTextChildren, taggedTextPiece_of_dispatch hd, hr,
                Bind.bind, Except.bind, pure, Except.pure, contentsText,
                contentsText_optTextItems, String.append_assoc]

/--
C2: for every node kind exposing both a content sequence and a flattened
`text` (`Sentence`, `QuoteStruct`, `Line`, `TaggedText`), the flattened text
is the concatenation of the content items' own texts in sequence order —
recursively, since the `text` of a nested `Line`/`QuoteStruct`/`Sentence`
item is itself the fold of that item's own contents.
-/
theorem c2_text_invariant :
    (∀ e items, TaggedText.tagged_text e = .ok items →
      TaggedText.text e = .ok (contentsText items)) ∧
    (∀ e, Sentence.text e = (Sentence.contents e).map contentsText) ∧
    (∀ e, QuoteStruct.text e = (QuoteStruct.contents e).map contentsText) ∧
    (∀ e, Line.text e = (Line.contents e).map contentsText) := by
  refine ⟨?_, fun _ => rfl, fun _ => rfl, fun _ => rfl⟩
  intro e items h
  cases e with
  | mk t a txt ch tl =>
      simp only [TaggedText.tagged_text] at h
      cases hc : taggedChildren ch with
      | error m => rw [hc] at h; simp [Bind.bind, Except.bind] at h
      | ok its =>
          rw [hc] at h
          simp [Bind.bind, Except.bind, pure, Except.pure] at h
          subst h
          simp [TaggedText.text, taggedTextChildren_eq_fold ch its hc,
            Bind.bind, Except.bind, pure, Except.pure, contentsText_optTextItems]

/--
C2 witness: an `ArticleTitle` holding text and a `Ruby` — the flattened
text equals the fold of the tagged content sequence.
-/
theorem c2_text_invariant_witness :
    TaggedText.tagged_text (.mk "ArticleTitle" [] (some "第一条")
      [.mk "Ruby" [] (some "法") [.mk "Rt" [] (some "ほう") [] none] none] none)
      = .ok [.text "第一条", .ruby (some ["ほう"]) "法"] ∧
    TaggedText.text (.mk "ArticleTitle" [] (some "第一条")
      [.mk "Ruby" [] (some "法") [.mk "Rt" [] (some "ほう") [] none] none] none)
      = .ok (contentsText [.text "第一条", .ruby (some ["ほう"]) "法"]) := by
  refine ⟨rfl, ?_⟩
  exact c2_text_invariant.1 (.mk "ArticleTitle" [] (some "第一条")
    [.mk "Ruby" [] (some "法") [.mk "Rt" [] (some "ほう") [] none] none] none)
    [.text "第一条", .ruby (some ["ほう"]) "法"] rfl

/-! Claim C10: `QuoteStruct.text` concatenates exactly the items that carry
a `text` attribute; the others contribute nothing and cause no error. -/

/-- Concatenation of a list of strings in order. -/
def joinTexts : List String → String
  | [] => ""
  | s :: ss => s ++ joinTexts ss

theorem empty_append_str (s : String) : "" ++ s = s := by
  cases s with
  | mk l => rfl

theorem contentsText_eq_joinTexts (cs : List Content) :
    contentsText cs = joinTexts (cs.filterMap contentText) := by
  induction cs with
  | nil => rfl
  | cons c rest ih =>
      cases h : contentText c with
      | none => simp [contentsText, h, ih, empty_append_str]
      | some s => simp [contentsText, h, ih, joinTexts]

/--
C10: the flattened text of a `QuoteStruct` is the concatenation, in
sequence order, of the texts of exactly those content items that expose a
`text` attribute; the structural items (`Fig`, `Table`, `TableStruct`,
`FigStruct`, `List`) expose none, contribute nothing, and cause no error.
-/
theorem c10_quote_text_skips_textless :
    (∀ e items, QuoteStruct.contents e = .ok items →
      QuoteStruct.text e = .ok (joinTexts (items.filterMap contentText))) ∧
    (∀ src, contentText (.fig src) = none) ∧
    (∀ raw, contentText (.table raw) = none) ∧
    (∀ raw, contentText (.tableStruct raw) = none) ∧
    (∀ raw, contentText (.figStruct raw) = none) ∧
    (∀ raw, contentText (.listElem raw) = none) := by
  refine ⟨?_, fun _ => rfl, fun _ => rfl, fun _ => rfl, fun _ => rfl, fun _ => rfl⟩
  intro e items h
  simp [QuoteStruct.text, h, Except.map, contentsText_eq_joinTexts]

/--
C10 witness: a `QuoteStruct` holding text, a `Fig` and a `Sentence` — the
`Fig` contributes nothing to the flattened text, without error.
-/
theorem c10_quote_text_skips_textless_witness :
    QuoteStruct.contents (.mk "QuoteStruct" [] (some "a")
      [.mk "Fig" [("src", "u")] none [] (some "b"),
       .mk "Sentence" [] (some "c") [] none] none)
      = .ok [.text "a", .fig "u", .text "b", .sentence [.text "c"]] ∧
    QuoteStruct.text (.mk "QuoteStruct" [] (some "a")
      [.mk "Fig" [("src", "u")] none [] (some "b"),
       .mk "Sentence" [] (some "c") [] none] none)
      = .ok (joinTexts
          ([Content.text "a", .fig "u", .text "b",
            .sentence [.text "c"]].filterMap contentText)) := by
  refine ⟨rfl, ?_⟩
  exact c10_quote_text_skips_textless.1 (.mk "QuoteStruct" [] (some "a")
    [.mk "Fig" [("src", "u")] none [] (some "b"),
     .mk "Sentence" [] (some "c") [] none] none)
    [.text "a", .fig "u", .text "b", .sentence [.text "c"]] rfl

/-! Claim C4: the typed `Sentence` attributes decode, and out-of-set values
are fatal. -/

/--
C4: on `<Sentence Num="1" Function="proviso" Indent="Item"
WritingMode="vertical">` all four typed attributes decode to their
enumerated/integer values, and a present value outside the closed set of
`Function`, `Indent` or `WritingMode` — or a non-integer `Num` — raises.
-/
theorem c4_sentence_typed_attrs :
    (Sentence.num (.mk "Sentence"
        [("Num", "1"), ("Function", "proviso"), ("Indent", "Item"),
         ("WritingMode", "vertical")] (some "x") [] none) = .ok (some 1) ∧
     Sentence.function (.mk "Sentence"
        [("Num", "1"), ("Function", "proviso"), ("Indent", "Item"),
         ("WritingMode", "vertical")] (some "x") [] none) = .ok (some "proviso") ∧
     Sentence.indent (.mk "Sentence"
        [("Num", "1"), ("Function", "proviso"), ("Indent", "Item"),
         ("WritingMode", "vertical")] (some "x") [] none) = .ok (some "Item") ∧
     writing_mode (.mk "Sentence"
        [("Num", "1"), ("Function", "proviso"), ("Indent", "Item"),
         ("WritingMode", "vertical")] (some "x") [] none) = .ok (some "vertical")) ∧
    (∀ e s m, get_attr e "Num" = some s → pyInt s = .error m →
      ∃ m2, Sentence.num e = .error m2) ∧
    (∀ e s, get_attr e "Function" = some s → s ≠ "main" → s ≠ "proviso" →
      ∃ m, Sentence.function e = .error m) ∧
    (∀ e s, get_attr e "Indent" = some s → s ∉ indentValues →
      ∃ m, Sentence.indent e = .error m) ∧
    (∀ e s, get_attr e "WritingMode" = some s → s ≠ "vertical" → s ≠ "horizontal" →
      ∃ m, writing_mode e = .error m) := by
  refine ⟨⟨rfl, rfl, rfl, rfl⟩, ?_, ?_, ?_, ?_⟩
  · intro e s m hattr hint
    exact ⟨m, by simp [Sentence.num, hattr, hint, Except.map]⟩
  · intro e s hattr h1 h2
    exact ⟨"NotImplementedError", by simp [Sentence.function, hattr, h1, h2]⟩
  · intro e s hattr h
    exact ⟨"NotImplementedError", by simp [Sentence.indent, hattr, h]⟩
  · intro e s hattr h1 h2
    exact ⟨"NotImplementedError", by simp [writing_mode, hattr, h1, h2]⟩

/--
C4 witness: `Function="thick"`, `Indent="Chapter"`, `WritingMode="diagonal"`
and `Num="one"` are each fatal.
-/
theorem c4_sentence_typed_attrs_witness :
    (∃ m, Sentence.num (.mk "Sentence" [("Num", "one")] none [] none) = .error m) ∧
    (∃ m, Sentence.function
      (.mk "Sentence" [("Function", "thick")] none [] none) = .error m) ∧
    (∃ m, Sentence.indent
      (.mk "Sentence" [("Indent", "Chapter")] none [] none) = .error m) ∧
    (∃ m, writing_mode
      (.mk "Sentence" [("WritingMode", "diagonal")] none [] none) = .error m) := by
  refine ⟨?_, ?_, ?_, ?_⟩
  · exact c4_sentence_typed_attrs.2.1 (.mk "Sentence" [("Num", "one")] none [] none)
      "one" "ValueError: invalid literal for int" rfl rfl
  · exact c4_sentence_typed_attrs.2.2.1
      (.mk "Sentence" [("Function", "thick")] none [] none) "thick" rfl
      (by decide) (by decide)
  · exact c4_sentence_typed_attrs.2.2.2.1
      (.mk "Sentence" [("Indent", "Chapter")] none [] none) "Chapter" rfl
      (by decide)
  · exact c4_sentence_typed_attrs.2.2.2.2
      (.mk "Sentence" [("WritingMode", "diagonal")] none [] none) "diagonal" rfl
      (by decide) (by decide)

/-! Claim C5: attribute lookup — raw value when present, a distinct absent
state when not. -/

theorem lookup_of_mem_nodup {l : List (String × String)} {n v : String}
    (hmem : (n, v) ∈ l) (hnd : (l.map Prod.fst).Nodup) : l.lookup n = some v := by
  induction l with
  | nil => cases hmem
  | cons p tl ih =>
      obtain ⟨k, w⟩ := p
      simp only [List.map_cons, List.nodup_cons] at hnd
      rcases List.mem_cons.mp hmem with heq | htl
      · rw [Prod.mk.injEq] at heq
        obtain ⟨hn, hv⟩ := heq
        subst hn
        subst hv
        simp [List.lookup]
      · have hnk : n ≠ k := by
          intro hnk
          subst hnk
          refine hnd.1 ?_
          have hm := List.mem_map_of_mem Prod.fst htl
          simpa using hm
        have hne : (n == k) = false := by
          simp [hnk]
        simp [List.lookup, hne]
        exact ih htl hnd.2

theorem lookup_of_notMem {l : List (String × String)} {n : String}
    (h : ∀ v, (n, v) ∉ l) : l.lookup n = none := by
  induction l with
  | nil => rfl
  | cons p tl ih =>
      obtain ⟨k, w⟩ := p
      have hnk : n ≠ k := by
        intro hnk
        subst hnk
        exact h w (List.mem_cons_self _ _)
      have hne : (n == k) = false := by
        simp [hnk]
      have htl : ∀ v, (n, v) ∉ tl := fun v hv => h v (List.mem_cons_of_mem _ hv)
      simp [List.lookup, hne, ih htl]

/--
C5: `get_attr` returns the attribute's raw string value when the attribute
is present on the element and a distinct absent state (`none`) when it is
not; consequently `<Sentence>x</Sentence>` with no `Num` yields
`num == none`, not `0` or `""`.
-/
theorem c5_get_attr_absence :
    (∀ e n v, (n, v) ∈ e.attrs → (e.attrs.map Prod.fst).Nodup →
      get_attr e n = some v) ∧
    (∀ e n, (∀ v, (n, v) ∉ e.attrs) → get_attr e n = none) ∧
    Sentence.num (.mk "Sentence" [] (some "x") [] none) = .ok none := by
  refine ⟨?_, ?_, rfl⟩
  · intro e n v hmem hnd
    exact lookup_of_mem_nodup hmem hnd
  · intro e n h
    exact lookup_of_notMem h

/-- C5 witness: a present attribute is returned verbatim and an absent one
is `none`. -/
theorem c5_get_attr_absence_witness :
    (("Kana", "かな") ∈ (XmlElem.mk "LawTitle" [("Kana", "かな")]
        (some "t") [] none).attrs ∧
      get_attr (.mk "LawTitle" [("Kana", "かな")] (some "t") [] none) "Kana"
        = some "かな") ∧
    ((∀ v, ("Num", v) ∉ (XmlElem.mk "Sentence" [] (some "x") [] none).attrs) ∧
      get_attr (.mk "Sentence" [] (some "x") [] none) "Num" = none) := by
  constructor
  · refine ⟨by simp [XmlElem.attrs], ?_⟩
    exact c5_get_attr_absence.1 (.mk "LawTitle" [("Kana", "かな")] (some "t") [] none)
      "Kana" "かな" (by simp [XmlElem.attrs]) (by simp [XmlElem.attrs])
  · refine ⟨by simp [XmlElem.attrs], ?_⟩
    exact c5_get_attr_absence.2.1 (.mk "Sentence" [] (some "x") [] none) "Num"
      (by simp [XmlElem.attrs])

/-! Claims C6 and C7: the concrete traversal and attribute scenarios. -/

/--
C6: for `<Item Num="1"><ItemTitle>Item title</ItemTitle><ItemSentence>
<Sentence Num="1">Item sentence</Sentence></ItemSentence></Item>`, the
`texts()` traversal yields exactly `["Item title", "Item sentence"]` in
that order and nothing else.
-/
theorem c6_item_texts_scenario :
    Item.texts (.mk "Item" [("Num", "1")] none
      [.mk "ItemTitle" [] (some "Item title") [] none,
       .mk "ItemSentence" [] none
         [.mk "Sentence" [("Num", "1")] (some "Item sentence") [] none] none]
      none)
    = .ok ["Item title", "Item sentence"] := rfl

/--
C7: for `<LawTitle Kana="たいとる" Abbrev="">タイトル</LawTitle>`, `kana`
is the raw reading, `abbrev` is present-but-empty (the empty string, not
absent), `abbrev_kana` is absent, and the flattened text is the title text.
-/
theorem c7_law_title_scenario :
    LawTitle.kana (.mk "LawTitle" [("Kana", "たいとる"), ("Abbrev", "")]
      (some "タイトル") [] none) = some "たいとる" ∧
    LawTitle.abbrev (.mk "LawTitle" [("Kana", "たいとる"), ("Abbrev", "")]
      (some "タイトル") [] none) = some "" ∧
    LawTitle.abbrev_kana (.mk "LawTitle" [("Kana", "たいとる"), ("Abbrev", "")]
      (some "タイトル") [] none) = none ∧
    TaggedText.text (.mk "LawTitle" [("Kana", "たいとる"), ("Abbrev", "")]
      (some "タイトル") [] none) = .ok "タイトル" :=
  ⟨rfl, rfl, rfl, rfl⟩

/-! Claim C8: the order of the whole-document `texts()` traversal, and the
exclusion of supplementary-provision and appendix structures from it. -/

/-- The supplementary and appendix child tags of `LawBody` that its
`texts()` does not walk. -/
def lawBodySupplTags : List String :=
  ["SupplProvision", "AppdxTable", "AppdxNote", "AppdxStyle", "Appdx",
   "AppdxFig", "AppdxFormat"]

theorem supplTag_ne {s : String} (hs : s ∈ lawBodySupplTags) :
    (s == "LawTitle") = false ∧ (s == "EnactStatement") = false ∧
    (s == "MainProvision") = false := by
  simp [lawBodySupplTags] at hs
  rcases hs with h | h | h | h | h | h | h <;> subst h <;> exact ⟨rfl, rfl, rfl⟩

theorem find_tag_append (ch extras : List XmlElem) (T : String)
    (hext : ∀ x ∈ extras, (x.tag == T) = false) :
    (ch ++ extras).find? (fun c => c.tag == T)
      = ch.find? (fun c => c.tag == T) := by
  induction ch with
  | nil =>
      simp only [List.nil_append, List.find?_nil]
      exact List.find?_eq_none.mpr (fun x hx => by simp [hext x hx])
  | cons hd tl ih =>
      simp only [List.cons_append, List.find?_cons]
      cases hp : (hd.tag == T) with
      | true => rfl
      | false => exact ih

/--
C8: `Law.texts` delegates to `LawBody.texts`; `LawBody.texts` yields the law
title's text first (when present), then the enactment statement's text (when
present), then all main-provision texts; and appending
supplementary-provision or appendix children to a `LawBody` leaves its
`texts()` unchanged.
-/
theorem c8_law_texts_order :
    (∀ e bE, findChild e "LawBody" = some bE → Law.texts e = LawBody.texts bE) ∧
    (∀ e ltE esE mpE s1 s2 ms,
      findChild e "LawTitle" = some ltE → TaggedText.text ltE = .ok s1 →
      findChild e "EnactStatement" = some esE → TaggedText.text esE = .ok s2 →
      findChild e "MainProvision" = some mpE → MainProvision.texts mpE = .ok ms →
      LawBody.texts e = .ok (s1 :: s2 :: ms)) ∧
    (∀ t a txt ch tl extras, (∀ x ∈ extras, x.tag ∈ lawBodySupplTags) →
      LawBody.texts (.mk t a txt (ch ++ extras) tl)
        = LawBody.texts (.mk t a txt ch tl)) := by
  refine ⟨?_, ?_, ?_⟩
  · intro e bE h
    simp [Law.texts, requiredChild, h, Bind.bind, Except.bind]
  · intro e ltE esE mpE s1 s2 ms hlt hs1 hes hs2 hmp hms
    simp [LawBody.texts, titleTexts, requiredChild, hlt, hs1, hes, hs2, hmp, hms,
      Bind.bind, Except.bind, Except.map, pure, Except.pure]
  · intro t a txt ch tl extras hext
    have h1 : ∀ x ∈ extras, (x.tag == "LawTitle") = false :=
      fun x hx => (supplTag_ne (hext x hx)).1
    have h2 : ∀ x ∈ extras, (x.tag == "EnactStatement") = false :=
      fun x hx => (supplTag_ne (hext x hx)).2.1
    have h3 : ∀ x ∈ extras, (x.tag == "MainProvision") = false :=
      fun x hx => (supplTag_ne (hext x hx)).2.2
    simp [LawBody.texts, titleTexts, requiredChild, findChild, XmlElem.children,
      find_tag_append ch extras _ h1, find_tag_append ch extras _ h2,
      find_tag_append ch extras _ h3]

/--
C8 witness: a `LawBody` with title, enactment statement, an empty main
provision and a supplementary provision — `texts()` yields title then
enactment statement then main-provision texts, and the `SupplProvision`
child contributes nothing.
-/
theorem c8_law_texts_order_witness :
    findChild (.mk "LawBody" []
        none
        [.mk "LawTitle" [] (some "T") [] none,
         .mk "EnactStatement" [] (some "E") [] none,
         .mk "MainProvision" [] none [] none] none) "LawTitle"
      = some (.mk "LawTitle" [] (some "T") [] none) ∧
    LawBody.texts (.mk "LawBody" []
        none
        [.mk "LawTitle" [] (some "T") [] none,
         .mk "EnactStatement" [] (some "E") [] none,
         .mk "MainProvision" [] none [] none] none)
      = .ok ["T", "E"] ∧
    LawBody.texts (.mk "LawBody" []
        none
        ([.mk "LawTitle" [] (some "T") [] none,
          .mk "EnactStatement" [] (some "E") [] none,
          .mk "MainProvision" [] none [] none] ++
         [.mk "SupplProvision" [] none
           [.mk "Article" [] none
             [.mk "ArticleTitle" [] (some "附則一") [] none] none] none]) none)
      = LawBody.texts (.mk "LawBody" []
        none
        [.mk "LawTitle" [] (some "T") [] none,
         .mk "EnactStatement" [] (some "E") [] none,
         .mk "MainProvision" [] none [] none] none) := by
  refine ⟨rfl, ?_, ?_⟩
  · have h := c8_law_texts_order.2.1 (.mk "LawBody" []
        none
        [.mk "LawTitle" [] (some "T") [] none,
         .mk "EnactStatement" [] (some "E") [] none,
         .mk "MainProvision" [] none [] none] none)
      (.mk "LawTitle" [] (some "T") [] none)
      (.mk "EnactStatement" [] (some "E") [] none)
      (.mk "MainProvision" [] none [] none)
      "T" "E" [] rfl rfl rfl rfl rfl rfl
    simpa using h
  · exact c8_law_texts_order.2.2 "LawBody" [] none
      [.mk "LawTitle" [] (some "T") [] none,
       .mk "EnactStatement" [] (some "E") [] none,
       .mk "MainProvision" [] none [] none] none
      [.mk "SupplProvision" [] none
        [.mk "Article" [] none
          [.mk "ArticleTitle" [] (some "附則一") [] none] none] none]
      (by intro x hx; simp at hx; subst hx; simp [XmlElem.tag, lawBodySupplTags])

/-! Claim C9: a missing mandatory child makes document construction fail as
a whole — no partial or degraded result. -/

theorem except_bind_ok {ε α β : Type} {x : Except ε α} {f : α → Except ε β} {b : β}
    (h : x >>= f = .ok b) : ∃ a, x = .ok a ∧ f a = .ok b := by
  cases x with
  | error m => simp [Bind.bind, Except.bind] at h
  | ok a => exact ⟨a, rfl, by simpa [Bind.bind, Except.bind] using h⟩

theorem requiredChild_some {e : XmlElem} {T : String} {c : XmlElem}
    (h : requiredChild e T = .ok c) : findChild e T = some c := by
  unfold requiredChild at h
  cases hf : findChild e T with
  | none => rw [hf] at h; simp at h
  | some x =>
      rw [hf] at h
      simp at h
      rw [h]

theorem lawFromXml_ok_implies {e : XmlElem} {d : LawDoc}
    (h : lawFromXml e = .ok d) :
    (∃ ln, findChild e "LawNum" = some ln) ∧
    (∃ bE, findChild e "LawBody" = some bE ∧
      ∃ mp, findChild bE "MainProvision" = some mp) := by
  simp only [lawFromXml] at h
  split at h
  · exact absurd h (by simp)
  · obtain ⟨era, h1, h⟩ := except_bind_ok h
    obtain ⟨yearS, h2, h⟩ := except_bind_ok h
    obtain ⟨year, h3, h⟩ := except_bind_ok h
    obtain ⟨u1, h4, h⟩ := except_bind_ok h
    obtain ⟨numS, h5, h⟩ := except_bind_ok h
    obtain ⟨num, h6, h⟩ := except_bind_ok h
    obtain ⟨u2, h7, h⟩ := except_bind_ok h
    obtain ⟨lawType, h8, h⟩ := except_bind_ok h
    obtain ⟨u3, h9, h⟩ := except_bind_ok h
    obtain ⟨lang, h10, h⟩ := except_bind_ok h
    obtain ⟨u4, h11, h⟩ := except_bind_ok h
    obtain ⟨pm, h12, h⟩ := except_bind_ok h
    obtain ⟨pd, h13, h⟩ := except_bind_ok h
    obtain ⟨lawNumE, h14, h⟩ := except_bind_ok h
    obtain ⟨lawNum, h15, h⟩ := except_bind_ok h
    obtain ⟨bodyE, h16, h⟩ := except_bind_ok h
    obtain ⟨body, h17, h⟩ := except_bind_ok h
    refine ⟨⟨lawNumE, requiredChild_some h14⟩,
      ⟨bodyE, requiredChild_some h16, ?_⟩⟩
    simp only [lawBodyFromXml] at h17
    obtain ⟨mp, hmp, _⟩ := except_bind_ok h17
    exact ⟨mp, requiredChild_some hmp⟩

/--
C9: when a mandatory child is missing (`Law.law_num`'s `LawNum` element, or
`LawBody.main_provision`'s `MainProvision` element), `LawParser.parse_from`
cannot return a `Law` object — the only possible outcome is a parse error
for the whole document.
-/
theorem c9_required_fields_fatal :
    (∀ e, findChild e "LawNum" = none → ∀ d, LawParser.parse_from e ≠ .ok d) ∧
    (∀ e bE, findChild e "LawBody" = some bE →
      findChild bE "MainProvision" = none →
      ∀ d, LawParser.parse_from e ≠ .ok d) ∧
    (∀ e, (∀ d, LawParser.parse_from e ≠ .ok d) →
      ∃ m, LawParser.parse_from e = .error m) := by
  refine ⟨?_, ?_, ?_⟩
  · intro e h d hok
    have hok2 : lawFromXml e = .ok d := hok
    obtain ⟨⟨ln, hln⟩, _⟩ := lawFromXml_ok_implies hok2
    rw [h] at hln
    cases hln
  · intro e bE hb hmp d hok
    have hok2 : lawFromXml e = .ok d := hok
    obtain ⟨_, bE2, hb2, mp, hmp2⟩ := lawFromXml_ok_implies hok2
    rw [hb] at hb2
    cases hb2
    rw [hmp] at hmp2
    cases hmp2
  · intro e h
    cases hr : LawParser.parse_from e with
    | ok d => exact absurd hr (h d)
    | error m => exact ⟨m, rfl⟩

/--
C9 witness: a `Law` element without a `LawNum` child, and one whose
`LawBody` lacks a `MainProvision`, each fail to construct.
-/
theorem c9_required_fields_fatal_witness :
    (findChild (.mk "Law"
        [("Era", "Reiwa"), ("Year", "5"), ("Num", "1"), ("LawType", "Act"),
         ("Lang", "ja")] none
        [.mk "LawBody" [] none [.mk "MainProvision" [] none [] none] none]
        none) "LawNum" = none ∧
      ∀ d, LawParser.parse_from (.mk "Law"
        [("Era", "Reiwa"), ("Year", "5"), ("Num", "1"), ("LawType", "Act"),
         ("Lang", "ja")] none
        [.mk "LawBody" [] none [.mk "MainProvision" [] none [] none] none]
        none) ≠ .ok d) ∧
    (findChild (.mk "LawBody" [] none [] none) "MainProvision" = none ∧
      ∀ d, LawParser.parse_from (.mk "Law"
        [("Era", "Reiwa"), ("Year", "5"), ("Num", "1"), ("LawType", "Act"),
         ("Lang", "ja")] none
        [.mk "LawNum" [] (some "令和五年法律第一号") [] none,
         .mk "LawBody" [] none [] none]
        none) ≠ .ok d) := by
  constructor
  · refine ⟨rfl, ?_⟩
    exact c9_required_fields_fatal.1 (.mk "Law"
      [("Era", "Reiwa"), ("Year", "5"), ("Num", "1"), ("LawType", "Act"),
       ("Lang", "ja")] none
      [.mk "LawBody" [] none [.mk "MainProvision" [] none [] none] none]
      none) rfl
  · refine ⟨rfl, ?_⟩
    exact c9_required_fields_fatal.2.1 (.mk "Law"
      [("Era", "Reiwa"), ("Year", "5"), ("Num", "1"), ("LawType", "Act"),
       ("Lang", "ja")] none
      [.mk "LawNum" [] (some "令和五年法律第一号") [] none,
       .mk "LawBody" [] none [] none]
      none) (.mk "LawBody" [] none [] none) rfl rfl

end JaLaw
